import Mathlib

/-!
Verification of the restaurant-forecast MCP server's analytics and
forecasting core against its specification.  JavaScript numbers are
embedded as rationals; `Math.round` is embedded as `round` (round half
toward plus infinity, which agrees with JavaScript on rationals), and
MongoDB's `$round` as round-half-to-even.  Dates carry day granularity
and are embedded as integers (day numbers); calendar formatting done by
the persistence store (`$dateToString`, `$dayOfWeek`) is taken as an
abstract parameter, as the spec treats the store as an external
collaborator.
-/

namespace RestaurantForecast

/-- JavaScript `Math.round`: nearest integer, halves toward plus infinity.
On rationals this is Mathlib's `round` (`round x = ⌊x + 1/2⌋`). -/
def jsRound (x : ℚ) : ℤ := round x

/-- JavaScript `Math.round(x * 100) / 100`: round to 2 decimal places. -/
def jsRound2 (x : ℚ) : ℚ := (jsRound (x * 100) : ℚ) / 100

/-- JavaScript `Math.round(x * 10) / 10`: round to 1 decimal place. -/
def jsRound1 (x : ℚ) : ℚ := (jsRound (x * 10) : ℚ) / 10

/-- MongoDB `$round` to integer: nearest integer, ties to even. -/
def mongoRoundInt (x : ℚ) : ℤ :=
  if Int.fract x = 1/2 then (if 2 ∣ ⌊x⌋ then ⌊x⌋ else ⌊x⌋ + 1) else round x

/-- MongoDB `{ $round: [x, 2] }`: round to 2 decimal places, ties to even. -/
def mongoRound2 (x : ℚ) : ℚ := (mongoRoundInt (x * 100) : ℚ) / 100

theorem jsRound_intCast (n : ℤ) : jsRound (n : ℚ) = n := by
  simp [jsRound]

theorem jsRound2_of_int_mul (x : ℚ) (a : ℤ) (h : x * 100 = a) : jsRound2 x = x := by
  have hx : x = (a : ℚ) / 100 := by
    field_simp at h ⊢
    linarith
  simp [jsRound2, h, jsRound_intCast, hx]

theorem mongoRoundInt_intCast (n : ℤ) : mongoRoundInt (n : ℚ) = n := by
  simp [mongoRoundInt, Int.fract_intCast]

theorem mongoRound2_of_int_mul (x : ℚ) (a : ℤ) (h : x * 100 = a) : mongoRound2 x = x := by
  have hx : x = (a : ℚ) / 100 := by
    field_simp at h ⊢
    linarith
  simp [mongoRound2, h, mongoRoundInt_intCast, hx]

theorem jsRound_mono {x y : ℚ} (h : x ≤ y) : jsRound x ≤ jsRound y := by
  simp only [jsRound, round_eq]
  exact Int.floor_le_floor (by linarith)

theorem jsRound2_mono {x y : ℚ} (h : x ≤ y) : jsRound2 x ≤ jsRound2 y := by
  have := jsRound_mono (x := x * 100) (y := y * 100) (by nlinarith)
  simp only [jsRound2]
  have : (jsRound (x * 100) : ℚ) ≤ (jsRound (y * 100) : ℚ) := by exact_mod_cast this
  linarith

theorem jsRound_nonneg {x : ℚ} (h : 0 ≤ x) : 0 ≤ jsRound x := by
  have := jsRound_mono (x := 0) (y := x) h
  simpa [jsRound] using this

theorem jsRound2_nonneg {x : ℚ} (h : 0 ≤ x) : 0 ≤ jsRound2 x := by
  have := jsRound_nonneg (x := x * 100) (by nlinarith)
  have : (0 : ℚ) ≤ (jsRound (x * 100) : ℚ) := by exact_mod_cast this
  simp only [jsRound2]
  linarith

/-- Evaluation rule for `jsRound` on concrete rationals. -/
theorem jsRound_eq_iff {x : ℚ} {n : ℤ} :
    jsRound x = n ↔ (n : ℚ) ≤ x + 1/2 ∧ x + 1/2 < n + 1 := by
  rw [jsRound, round_eq, Int.floor_eq_iff]

/-- Evaluation rule for `mongoRoundInt` away from ties. -/
theorem mongoRoundInt_eq_of_abs_lt {x : ℚ} {n : ℤ} (h : |x - n| < 1/2) :
    mongoRoundInt x = n := by
  rw [abs_lt] at h
  have hround : round x = n := by
    rw [round_eq, Int.floor_eq_iff]
    constructor <;> linarith
  have hfr : Int.fract x ≠ 1/2 := by
    rcases le_or_lt (n : ℚ) x with hc | hc
    · have hf : ⌊x⌋ = n := by
        rw [Int.floor_eq_iff]
        exact ⟨hc, by linarith⟩
      rw [Int.fract, hf]
      intro hcontra
      linarith
    · have hf : ⌊x⌋ = n - 1 := by
        rw [Int.floor_eq_iff]
        constructor <;> push_cast <;> linarith
      rw [Int.fract, hf]
      intro hcontra
      push_cast at hcontra
      linarith
  rw [mongoRoundInt, if_neg hfr, hround]

/-- One-decimal rounding moves a value by at most 0.05: `|jsRound1 x - x| ≤ 1/20`. -/
theorem abs_jsRound1_sub_le (x : ℚ) : |jsRound1 x - x| ≤ 1/20 := by
  have h : |(jsRound (x * 10) : ℚ) - x * 10| ≤ 1/2 := by
    simpa [jsRound, abs_sub_comm] using abs_sub_round (x * 10)
  rw [jsRound1, abs_le] at *
  constructor <;> [linarith [h.1]; linarith [h.2]]

-- ═══════════════════════ DATA MODEL ═══════════════════════

/-- One sale line (the `Sale` Mongoose model): product drawn from the fixed
5-item set, date at day granularity (embedded as a day number), unit price,
quantity, channel (`purchaseType`) and payment method. -/
structure Sale where
  orderId : ℕ
  date : ℤ
  product : String
  price : ℚ
  quantity : ℚ
  purchaseType : String
  paymentMethod : String
deriving DecidableEq

-- ═══════════ CONSUMPTION ESTIMATOR (tools/inventory.js) ═══════════

/-- The `$match` stage of `getAvgDailyConsumption`: sales of `productName`
with `date ≥ startDate` (where `startDate = now - lookbackDays`). -/
def consumptionMatch (sales : List Sale) (productName : String) (startDate : ℤ) :
    List Sale :=
  sales.filter (fun s => s.product == productName && decide (startDate ≤ s.date))

/-- Embeds `getAvgDailyConsumption`: sum the matched quantities (`$sum`), collect the
distinct sale dates (`$addToSet`), return 0 when nothing matched, else
`Math.round(totalQty / dayCount.length)`. -/
def getAvgDailyConsumption (sales : List Sale) (productName : String)
    (startDate : ℤ) : ℤ :=
  let matched := consumptionMatch sales productName startDate
  let totalQty : ℚ := (matched.map (·.quantity)).sum
  let dayCount := ((matched.map (·.date)).dedup).length
  if dayCount = 0 then 0 else jsRound (totalQty / (dayCount : ℚ))

/-- Total quantity sold in the window, as the spec words it. -/
def totalQuantitySold (sales : List Sale) (productName : String)
    (startDate : ℤ) : ℚ :=
  ((consumptionMatch sales productName startDate).map (·.quantity)).sum

/-- Number of distinct days in the window with at least one sale, as the
spec words it (cardinality of the set of sale dates). -/
def distinctSaleDays (sales : List Sale) (productName : String)
    (startDate : ℤ) : ℕ :=
  ((consumptionMatch sales productName startDate).map (·.date)).toFinset.card

-- ═══════════════ THEOREMS: CONSUMPTION ESTIMATOR (C2) ═══════════════

/-- Concrete history for C2: two `Fries` sales on two distinct days with
quantities 2 and 3 (total 5 over 2 days with sales). -/
def c2Sales : List Sale :=
  [⟨1, 1, "Fries", 1, 2, "Online", "Cash"⟩,
   ⟨2, 2, "Fries", 1, 3, "Online", "Cash"⟩]

/-- C2 counterexample: the Consumption Estimator does NOT return
`totalQuantitySold / distinctSaleDays` itself — it returns `Math.round` of
it.  With total 5 over 2 sale days the quotient is 5/2 but the code
returns 3. -/
theorem c2_avg_consumption_counterexample :
    getAvgDailyConsumption c2Sales "Fries" 0 = 3
    ∧ totalQuantitySold c2Sales "Fries" 0 = 5
    ∧ distinctSaleDays c2Sales "Fries" 0 = 2
    ∧ ((getAvgDailyConsumption c2Sales "Fries" 0 : ℚ)
        ≠ totalQuantitySold c2Sales "Fries" 0
            / (distinctSaleDays c2Sales "Fries" 0 : ℚ)) := by
  have hmatch : consumptionMatch c2Sales "Fries" 0 = c2Sales := by decide
  have hq : (c2Sales.map (·.quantity)) = [2, 3] := by decide
  have hd : ((c2Sales.map (·.date)).dedup).length = 2 := by decide
  have h2 : totalQuantitySold c2Sales "Fries" 0 = 5 := by
    rw [totalQuantitySold, hmatch, hq]
    norm_num [List.sum_cons, List.sum_nil]
  have h3 : distinctSaleDays c2Sales "Fries" 0 = 2 := by decide
  have h1 : getAvgDailyConsumption c2Sales "Fries" 0 = 3 := by
    simp only [getAvgDailyConsumption, hmatch, hq, hd]
    norm_num [jsRound_eq_iff, List.sum_cons, List.sum_nil]
  refine ⟨h1, h2, h3, ?_⟩
  rw [h1, h2, h3]
  norm_num

/-- C2 (amended): the Consumption Estimator returns 0 when no sales match
the window, and otherwise returns the total quantity sold divided by the
number of distinct days with at least one sale — rounded to the nearest
integer (`Math.round`).  It is never divided by the calendar window
length. -/
theorem c2_avg_consumption_amended (sales : List Sale) (productName : String)
    (startDate : ℤ) :
    (consumptionMatch sales productName startDate = [] →
      getAvgDailyConsumption sales productName startDate = 0)
    ∧ (consumptionMatch sales productName startDate ≠ [] →
      getAvgDailyConsumption sales productName startDate
        = jsRound (totalQuantitySold sales productName startDate
            / (distinctSaleDays sales productName startDate : ℚ))) := by
  constructor
  · intro h
    simp [getAvgDailyConsumption, h]
  · intro h
    have hcard : distinctSaleDays sales productName startDate
        = ((consumptionMatch sales productName startDate).map (·.date)).dedup.length := by
      simp [distinctSaleDays, List.card_toFinset]
    have hne : ((consumptionMatch sales productName startDate).map (·.date)).dedup.length ≠ 0 := by
      simp only [ne_eq, List.length_eq_zero, List.dedup_eq_nil, List.map_eq_nil_iff]
      exact h
    simp only [getAvgDailyConsumption, totalQuantitySold, hcard, hne, if_neg hne]
    simp

/-- C2 witness: a single-sale history satisfies the non-empty hypothesis and
the amended formula evaluates there. -/
theorem c2_avg_consumption_witness :
    consumptionMatch [⟨7, 4, "Fries", 1, 9, "Online", "Cash"⟩] "Fries" 0 ≠ []
    ∧ getAvgDailyConsumption [⟨7, 4, "Fries", 1, 9, "Online", "Cash"⟩] "Fries" 0
        = jsRound (totalQuantitySold [⟨7, 4, "Fries", 1, 9, "Online", "Cash"⟩] "Fries" 0
            / (distinctSaleDays [⟨7, 4, "Fries", 1, 9, "Online", "Cash"⟩] "Fries" 0 : ℚ)) :=
  ⟨by decide,
   (c2_avg_consumption_amended [⟨7, 4, "Fries", 1, 9, "Online", "Cash"⟩] "Fries" 0).2
     (by decide)⟩

-- ═══════ INVENTORY SIMULATION ENGINE (scripts/seed.js) ═══════

/-- Traffic-light health bands. -/
inductive StockStatus
  | green
  | yellow
  | red
deriving DecidableEq

/-- The status classifier used identically by the offline simulation
(`seed.js`) and the online check (`tools/inventory.js`): red below
`minStockDaily`, yellow below `reorderPoint`, else green. -/
def classifyStatus (stock minStockDaily reorderPoint : ℚ) : StockStatus :=
  if stock < minStockDaily then .red
  else if stock < reorderPoint then .yellow
  else .green

/-- The `inventory` sub-structure of a product's configuration. -/
structure InventoryPolicy where
  minStockDaily : ℚ
  reorderPoint : ℚ
  maxStockDaily : ℚ
deriving DecidableEq

/-- One `InventorySnapshot` document as inserted by `seedInventory`. -/
structure InventorySnapshot where
  product : String
  date : ℤ
  stockLevel : ℚ
  consumed : ℚ
  restocked : ℚ
  status : StockStatus
deriving DecidableEq

/-- The chronological per-product fold of `seedInventory`: subtract the day's
consumption; if the result fell below `reorderPoint`, restock back to
`maxStockDaily` and record the delta; classify the resulting stock; emit a
snapshot with stock, consumed and restocked rounded to 2 decimal places. -/
def simulateInventory (productName : String) (pol : InventoryPolicy)
    (stock : ℚ) : List (ℤ × ℚ) → List InventorySnapshot
  | [] => []
  | (d, consumed) :: rest =>
    let afterSale := stock - consumed
    let restocked : ℚ :=
      if afterSale < pol.reorderPoint then pol.maxStockDaily - afterSale else 0
    let newStock : ℚ :=
      if afterSale < pol.reorderPoint then pol.maxStockDaily else afterSale
    { product := productName, date := d,
      stockLevel := jsRound2 newStock,
      consumed := jsRound2 consumed,
      restocked := jsRound2 restocked,
      status := classifyStatus newStock pol.minStockDaily pol.reorderPoint }
      :: simulateInventory productName pol newStock rest

/-- The `$group` + `$sort` stage feeding the simulation: one
`(date, total quantity)` pair per sale day of the product, dates ascending. -/
def dailyTotals (sales : List Sale) (p : String) : List (ℤ × ℚ) :=
  let ss := sales.filter (fun s => s.product == p)
  ((ss.map (·.date)).dedup.insertionSort (· ≤ ·)).map
    (fun d => (d, ((ss.filter (fun s => s.date == d)).map (·.quantity)).sum))

/-- Embeds `seedInventory` for one configured product: walk its day totals in
chronological order starting from a full stock of `maxStockDaily`. -/
def seedInventorySeries (sales : List Sale) (p : String)
    (pol : InventoryPolicy) : List InventorySnapshot :=
  simulateInventory p pol pol.maxStockDaily (dailyTotals sales p)

theorem classifyStatus_green (stock minS reorder : ℚ) (h1 : minS < reorder)
    (h2 : reorder ≤ stock) : classifyStatus stock minS reorder = .green := by
  rw [classifyStatus, if_neg (by linarith), if_neg (by linarith)]

/-- Core invariant of the simulation: every emitted snapshot stores the
2-decimal rounding of a raw stock value at or above the reorder point, and
is classified green. -/
theorem simulateInventory_invariant (productName : String)
    (pol : InventoryPolicy) (h1 : pol.minStockDaily < pol.reorderPoint)
    (h2 : pol.reorderPoint < pol.maxStockDaily) (days : List (ℤ × ℚ)) :
    ∀ (stock : ℚ) (snap : InventorySnapshot),
      snap ∈ simulateInventory productName pol stock days →
      ∃ s : ℚ, snap.stockLevel = jsRound2 s ∧ pol.reorderPoint ≤ s
        ∧ snap.status = .green := by
  induction days with
  | nil => intro stock snap hmem; simp [simulateInventory] at hmem
  | cons day rest ih =>
    intro stock snap hmem
    obtain ⟨d, c⟩ := day
    simp only [simulateInventory, List.mem_cons] at hmem
    rcases hmem with hhead | htail
    · by_cases hr : stock - c < pol.reorderPoint
      · refine ⟨pol.maxStockDaily, ?_, le_of_lt h2, ?_⟩
        · rw [hhead]; simp [hr]
        · rw [hhead]
          simp only [hr, if_pos]
          exact classifyStatus_green _ _ _ h1 (le_of_lt h2)
      · refine ⟨stock - c, ?_, not_lt.mp hr, ?_⟩
        · rw [hhead]; simp [hr]
        · rw [hhead]
          simp only [hr, if_neg, ite_false]
          exact classifyStatus_green _ _ _ h1 (not_lt.mp hr)
    · exact ih _ snap htail

-- ═══════════ THEOREMS: SIMULATION INVARIANTS (C3, C6) ═══════════

/-- C3 counterexample policy: thresholds `0.5 < 1.004 < 100` satisfy the
invariant `0 ≤ minStock < reorderPoint < maxStock`, but the reorder point is
not a 2-decimal value. -/
def c3Pol : InventoryPolicy := ⟨1/2, 251/250, 100⟩

/-- C3 counterexample history: one sale of 98.996 units on day 0, leaving a
raw stock of exactly 1.004 (the reorder point, so no restock). -/
def c3Sales : List Sale := [⟨1, 0, "Fries", 1, 24749/250, "Online", "Cash"⟩]

/-- C3 counterexample: the emitted snapshot is green and its raw stock is at
the reorder point, but the STORED `stockLevel` is the 2-decimal rounding
`1.00 < 1.004 = reorderPoint`, refuting `stockLevel ≥ reorderPoint` as
stated. -/
theorem c3_stock_ge_reorder_counterexample :
    (0 : ℚ) ≤ c3Pol.minStockDaily
    ∧ c3Pol.minStockDaily < c3Pol.reorderPoint
    ∧ c3Pol.reorderPoint < c3Pol.maxStockDaily
    ∧ (seedInventorySeries c3Sales "Fries" c3Pol).map
        (fun snap => (snap.stockLevel, snap.status)) = [(1, .green)]
    ∧ (1 : ℚ) < c3Pol.reorderPoint := by
  have hf : c3Sales.filter (fun s => s.product == "Fries") = c3Sales := by
    simp [c3Sales]
  have hd : ((c3Sales.map (·.date)).dedup.insertionSort (· ≤ ·)) = [0] := by decide
  have hq : (c3Sales.filter (fun s => s.date == (0:ℤ))).map (·.quantity)
      = [24749/250] := by
    simp [c3Sales]
  have hdt : dailyTotals c3Sales "Fries" = [((0:ℤ), 24749/250)] := by
    simp only [dailyTotals, hf, hd, List.map_cons, List.map_nil, hq,
      List.sum_cons, List.sum_nil, add_zero]
  have hrnd : jsRound2 (100 - 24749/250) = 1 := by
    have : jsRound ((100 - 24749/250) * 100) = 100 :=
      jsRound_eq_iff.mpr (by norm_num)
    rw [jsRound2, this]
    norm_num
  refine ⟨by norm_num [c3Pol], by norm_num [c3Pol], by norm_num [c3Pol], ?_,
    by norm_num [c3Pol]⟩
  rw [seedInventorySeries, hdt]
  simp only [simulateInventory, List.map_cons, List.map_nil]
  rw [if_neg (by norm_num [c3Pol])]
  refine congrArg (fun x => x :: []) ?_
  rw [Prod.mk.injEq]
  constructor
  · exact hrnd
  · exact classifyStatus_green _ _ _ (by norm_num [c3Pol]) (by norm_num [c3Pol])

/-- C3 (amended): under `0 ≤ minStock < reorderPoint < maxStock`, every
snapshot the Inventory Simulation Engine emits is classified green (yellow
and red never occur), since the raw post-restock stock is always at or above
the reorder point; and whenever the reorder point is a 2-decimal value
(`reorderPoint × 100` is an integer, as in every real configuration) the
stored `stockLevel` is also ≥ `reorderPoint`. -/
theorem c3_all_green_amended (sales : List Sale) (p : String)
    (pol : InventoryPolicy) (_h0 : 0 ≤ pol.minStockDaily)
    (h1 : pol.minStockDaily < pol.reorderPoint)
    (h2 : pol.reorderPoint < pol.maxStockDaily) (snap : InventorySnapshot)
    (hmem : snap ∈ seedInventorySeries sales p pol) :
    snap.status = .green
    ∧ ((∃ k : ℤ, pol.reorderPoint * 100 = k) →
        pol.reorderPoint ≤ snap.stockLevel) := by
  obtain ⟨s, hs, hge, hst⟩ :=
    simulateInventory_invariant p pol h1 h2 (dailyTotals sales p)
      pol.maxStockDaily snap hmem
  refine ⟨hst, ?_⟩
  rintro ⟨k, hk⟩
  calc pol.reorderPoint = jsRound2 pol.reorderPoint :=
        (jsRound2_of_int_mul _ k hk).symm
    _ ≤ jsRound2 s := jsRound2_mono hge
    _ = snap.stockLevel := hs.symm

/-- C6 (as stated): under `0 ≤ minStock < reorderPoint < maxStock`, every
snapshot in the simulated series has a non-negative stock level. -/
theorem c6_stock_nonneg (sales : List Sale) (p : String)
    (pol : InventoryPolicy) (h0 : 0 ≤ pol.minStockDaily)
    (h1 : pol.minStockDaily < pol.reorderPoint)
    (h2 : pol.reorderPoint < pol.maxStockDaily) (snap : InventorySnapshot)
    (hmem : snap ∈ seedInventorySeries sales p pol) :
    0 ≤ snap.stockLevel := by
  obtain ⟨s, hs, hge, _⟩ :=
    simulateInventory_invariant p pol h1 h2 (dailyTotals sales p)
      pol.maxStockDaily snap hmem
  rw [hs]
  exact jsRound2_nonneg (by linarith)

-- Scenario A from the spec (§8): Fries sold [10, 20, 0] over three days with
-- thresholds min 2 / reorder 5 / max 50 → stock levels [40, 20, 20], all green.
def scenarioAPol : InventoryPolicy := ⟨2, 5, 50⟩

def scenarioASales : List Sale :=
  [⟨1, 1, "Fries", 1, 10, "Online", "Cash"⟩,
   ⟨2, 2, "Fries", 1, 20, "Online", "Cash"⟩,
   ⟨3, 3, "Fries", 1, 0, "Online", "Cash"⟩]

/-- The first snapshot of scenario A. -/
def scenarioASnap : InventorySnapshot := ⟨"Fries", 1, 40, 10, 0, .green⟩

theorem scenarioA_series :
    seedInventorySeries scenarioASales "Fries" scenarioAPol =
      [⟨"Fries", 1, 40, 10, 0, .green⟩,
       ⟨"Fries", 2, 20, 20, 0, .green⟩,
       ⟨"Fries", 3, 20, 0, 0, .green⟩] := by
  have hf : scenarioASales.filter (fun s => s.product == "Fries")
      = scenarioASales := by
    simp [scenarioASales]
  have hd : ((scenarioASales.map (·.date)).dedup.insertionSort (· ≤ ·))
      = [1, 2, 3] := by decide
  have hq1 : (scenarioASales.filter (fun s => s.date == (1:ℤ))).map (·.quantity)
      = [10] := by
    simp [scenarioASales]
  have hq2 : (scenarioASales.filter (fun s => s.date == (2:ℤ))).map (·.quantity)
      = [20] := by
    simp [scenarioASales]
  have hq3 : (scenarioASales.filter (fun s => s.date == (3:ℤ))).map (·.quantity)
      = [0] := by
    simp [scenarioASales]
  have hdt : dailyTotals scenarioASales "Fries"
      = [((1:ℤ), 10), ((2:ℤ), 20), ((3:ℤ), 0)] := by
    simp only [dailyTotals, hf, hd, List.map_cons, List.map_nil, hq1, hq2, hq3,
      List.sum_cons, List.sum_nil, add_zero]
  have e0 : jsRound2 0 = 0 := jsRound2_of_int_mul 0 0 (by norm_num)
  have e10 : jsRound2 10 = 10 := jsRound2_of_int_mul 10 1000 (by norm_num)
  have e20 : jsRound2 20 = 20 := jsRound2_of_int_mul 20 2000 (by norm_num)
  have e40 : jsRound2 40 = 40 := jsRound2_of_int_mul 40 4000 (by norm_num)
  rw [seedInventorySeries, hdt]
  simp only [simulateInventory]
  norm_num [scenarioAPol, classifyStatus, e0, e10, e20, e40]

/-- C3 witness: scenario A satisfies every hypothesis of the amended C3 and
its first snapshot is green with stock 40 ≥ reorder point 5. -/
theorem c3_all_green_witness :
    ((0 : ℚ) ≤ scenarioAPol.minStockDaily
      ∧ scenarioAPol.minStockDaily < scenarioAPol.reorderPoint
      ∧ scenarioAPol.reorderPoint < scenarioAPol.maxStockDaily
      ∧ scenarioASnap ∈ seedInventorySeries scenarioASales "Fries" scenarioAPol)
    ∧ (scenarioASnap.status = .green
      ∧ ((∃ k : ℤ, scenarioAPol.reorderPoint * 100 = k) →
          scenarioAPol.reorderPoint ≤ scenarioASnap.stockLevel)) := by
  have hmem : scenarioASnap ∈ seedInventorySeries scenarioASales "Fries" scenarioAPol := by
    rw [scenarioA_series]
    exact List.mem_cons_self _ _
  exact ⟨⟨by norm_num [scenarioAPol], by norm_num [scenarioAPol],
      by norm_num [scenarioAPol], hmem⟩,
    c3_all_green_amended scenarioASales "Fries" scenarioAPol
      (by norm_num [scenarioAPol]) (by norm_num [scenarioAPol])
      (by norm_num [scenarioAPol]) scenarioASnap hmem⟩

/-- C6 witness: scenario A satisfies every hypothesis of C6 and its first
snapshot has non-negative stock. -/
theorem c6_stock_nonneg_witness :
    ((0 : ℚ) ≤ scenarioAPol.minStockDaily
      ∧ scenarioAPol.minStockDaily < scenarioAPol.reorderPoint
      ∧ scenarioAPol.reorderPoint < scenarioAPol.maxStockDaily
      ∧ scenarioASnap ∈ seedInventorySeries scenarioASales "Fries" scenarioAPol)
    ∧ 0 ≤ scenarioASnap.stockLevel := by
  have hmem : scenarioASnap ∈ seedInventorySeries scenarioASales "Fries" scenarioAPol := by
    rw [scenarioA_series]
    exact List.mem_cons_self _ _
  exact ⟨⟨by norm_num [scenarioAPol], by norm_num [scenarioAPol],
      by norm_num [scenarioAPol], hmem⟩,
    c6_stock_nonneg scenarioASales "Fries" scenarioAPol
      (by norm_num [scenarioAPol]) (by norm_num [scenarioAPol])
      (by norm_num [scenarioAPol]) scenarioASnap hmem⟩

-- ═══════════════ FESTIVAL CACHE (tools/festivals.js) ═══════════════

/-- Embeds `leadMatch needle hay`: `needle` matches the front of `hay`. -/
def leadMatch : List Char → List Char → Bool
  | [], _ => true
  | _ :: _, [] => false
  | a :: as, b :: bs => a == b && leadMatch as bs

/-- Substring search: some suffix of the second list starts with the first. -/
def charsInclude (needle : List Char) : List Char → Bool
  | [] => leadMatch needle []
  | h :: t => leadMatch needle (h :: t) || charsInclude needle t

/-- JavaScript `hay.includes(needle)`. -/
def jsIncludes (hay needle : String) : Bool :=
  charsInclude needle.toList hay.toList

/-- JavaScript `s.toLowerCase()` (ASCII, which covers the keyword lists). -/
def jsToLower (s : String) : String := String.mk (s.toList.map Char.toLower)

def HIGH_IMPACT_HOLIDAYS : List String :=
  ["thanksgiving", "super bowl", "christmas", "independence day", "new year"]

def MEDIUM_IMPACT_HOLIDAYS : List String :=
  ["memorial", "labor day", "mother", "father", "valentine", "halloween",
   "black friday"]

/-- Result of `classifyImpact` (the emoji field is elided). -/
structure Impact where
  level : String
  multiplier : ℚ
deriving DecidableEq

/-- Embeds `classifyImpact(holidayName)`: case-insensitive keyword match against the
fixed keyword lists; HIGH → 1.45, MEDIUM → 1.25, otherwise LOW → 1.10. -/
def classifyImpact (holidayName : String) : Impact :=
  let lower := jsToLower holidayName
  if HIGH_IMPACT_HOLIDAYS.any (fun keyword => jsIncludes lower keyword) then
    ⟨"HIGH", 145/100⟩
  else if MEDIUM_IMPACT_HOLIDAYS.any (fun keyword => jsIncludes lower keyword) then
    ⟨"MEDIUM", 125/100⟩
  else ⟨"LOW", 110/100⟩

/-- One cached `Festival` document. -/
structure FestivalEntry where
  name : String
  date : ℤ
  localName : String
  countryCode : String
  source : String
  demandMultiplier : ℚ
  fetchedAt : ℤ
deriving DecidableEq

/-- One holiday object returned by the external calendar source. -/
structure Holiday where
  date : ℤ
  name : String
  localName : String
deriving DecidableEq

/-- Embeds `Festival.updateOne({name, date}, {$set: {...}}, {upsert: true})`: when a
document with the `(name, date)` key exists, `$set` exactly the listed fields
(`localName`, `countryCode`, `source`, `demandMultiplier`, `fetchedAt`) and
leave the rest untouched; otherwise insert a fresh document. -/
def festivalUpsert (cache : List FestivalEntry) (h : Holiday)
    (countryCode : String) (mult : ℚ) (now : ℤ) : List FestivalEntry :=
  if cache.any (fun e => e.name == h.name && e.date == h.date) then
    cache.map (fun e =>
      if e.name == h.name && e.date == h.date then
        { e with
          localName := h.localName
          countryCode := countryCode
          source := "nager-api"
          demandMultiplier := mult
          fetchedAt := now }
      else e)
  else
    cache ++ [⟨h.name, h.date, h.localName, countryCode, "nager-api", mult, now⟩]

/-- Embeds `syncFestivalsToCache`: upsert every fetched holiday, setting
`demandMultiplier` to the keyword-derived impact multiplier. -/
def syncFestivalsToCache (cache : List FestivalEntry)
    (holidays : List Holiday) (countryCode : String) (now : ℤ) :
    List FestivalEntry :=
  holidays.foldl
    (fun c holiday =>
      festivalUpsert c holiday countryCode
        (classifyImpact holiday.name).multiplier now)
    cache

-- ═══════════════ THEOREM: FESTIVAL REFRESH (C1) ═══════════════

/-- A cached Christmas entry whose demand multiplier was manually tuned
to 2.0. -/
def c1Entry : FestivalEntry :=
  ⟨"Christmas Day", 359, "Christmas Day", "US", "manual", 2, 0⟩

/-- The same holiday as returned by the calendar source on a later refresh. -/
def c1Holiday : Holiday := ⟨359, "Christmas Day", "Christmas Day"⟩

/-- C1: refreshing the cache overwrites the manually tuned multiplier 2.0
with the keyword-derived impact multiplier 1.45, because `demandMultiplier`
is inside the `$set` — contrary to the spec and to the code's own comment
that the upsert preserves a manually set `demandMultiplier`. -/
theorem c1_refresh_overwrites_manual_multiplier :
    (syncFestivalsToCache [c1Entry] [c1Holiday] "US" 100).map
        (·.demandMultiplier) = [145/100]
    ∧ ((145 : ℚ)/100 ≠ 2) := by
  have himp : classifyImpact "Christmas Day" = ⟨"HIGH", 145/100⟩ := by
    have hhigh : (HIGH_IMPACT_HOLIDAYS.any
        (fun keyword => jsIncludes (jsToLower "Christmas Day") keyword)) = true := by
      decide
    simp only [classifyImpact, hhigh, if_pos]
  have hany : ([c1Entry].any
      (fun e => e.name == c1Holiday.name && e.date == c1Holiday.date)) = true := by
    decide
  refine ⟨?_, by norm_num⟩
  simp only [syncFestivalsToCache, List.foldl, festivalUpsert, hany, if_pos,
    List.map_cons, List.map_nil]
  simp [c1Entry, c1Holiday, himp]

-- ═══════════ ONLINE INVENTORY CHECK (tools/inventory.js) ═══════════

/-- One per-product result of `handleCheckInventory` (emoji and
`last_updated` elided; the three threshold outputs are inlined as fields). -/
structure InventoryCheckRow where
  product : String
  category : String
  stock_level : ℚ
  status : String
  action : String
  avg_daily_consumption : ℤ
  days_until_stockout : ℤ
  min_stock : ℚ
  reorder_point : ℚ
  max_stock : ℚ
  restock_recommendation : ℚ
deriving DecidableEq

/-- The per-product body of `handleCheckInventory`: days-until-stockout is
`Math.round(stock / avgDaily)` when `avgDaily > 0` and 999 otherwise, capped
at 999 for display; thresholds default to 0 when absent (`|| 0`), the max
stock falls back to `stockLevel * 2` when absent or zero (`|| stock * 2`);
the status bands are the same as the simulation's classifier. -/
def checkInventoryRow (productName category : String)
    (inventoryCfg : Option InventoryPolicy) (stockLevel : ℚ) (avgDaily : ℤ) :
    InventoryCheckRow :=
  let daysUntilStockout : ℤ :=
    if 0 < avgDaily then jsRound (stockLevel / (avgDaily : ℚ)) else 999
  let minStock := (inventoryCfg.map (·.minStockDaily)).getD 0
  let reorder := (inventoryCfg.map (·.reorderPoint)).getD 0
  let maxRaw := (inventoryCfg.map (·.maxStockDaily)).getD 0
  let maxStock := if maxRaw = 0 then stockLevel * 2 else maxRaw
  { product := productName, category := category, stock_level := stockLevel,
    status :=
      if stockLevel < minStock then "red"
      else if stockLevel < reorder then "yellow"
      else "green",
    action :=
      if stockLevel < minStock then "CRITICAL — Order immediately!"
      else if stockLevel < reorder then "LOW — Place order soon"
      else "OK — Stock is healthy",
    avg_daily_consumption := avgDaily,
    days_until_stockout := min daysUntilStockout 999,
    min_stock := minStock, reorder_point := reorder, max_stock := maxStock,
    restock_recommendation := max 0 (maxStock - stockLevel) }

-- ═══════════════ THEOREMS: DAYS UNTIL STOCKOUT (C7) ═══════════════

/-- C7 counterexample: with stock 5 and average daily consumption 2 the
reported days-until-stockout is `Math.round(5/2) = 3`, not the exact
quotient 5/2 the claim states. -/
theorem c7_days_until_stockout_counterexample :
    (checkInventoryRow "Fries" "side" (some ⟨2, 5, 50⟩) 5 2).days_until_stockout = 3
    ∧ (((checkInventoryRow "Fries" "side" (some ⟨2, 5, 50⟩) 5 2).days_until_stockout : ℚ)
        ≠ 5 / 2) := by
  have h : (checkInventoryRow "Fries" "side" (some ⟨2, 5, 50⟩) 5 2).days_until_stockout
      = 3 := by
    have hr : jsRound ((5 : ℚ) / (2 : ℤ)) = 3 := jsRound_eq_iff.mpr (by norm_num)
    simp only [checkInventoryRow]
    rw [if_pos (by norm_num)]
    rw [hr]
    norm_num
  refine ⟨h, ?_⟩
  rw [h]
  norm_num

/-- C7 (amended): the reported days-until-stockout equals exactly 999 when
average daily consumption is 0 (no division is attempted); when it is
positive it equals `stock / avgDaily` rounded to the nearest integer and
capped at 999; and the reported value never exceeds 999. -/
theorem c7_days_until_stockout_amended (productName category : String)
    (inventoryCfg : Option InventoryPolicy) (stockLevel : ℚ) (avgDaily : ℤ) :
    (avgDaily = 0 →
      (checkInventoryRow productName category inventoryCfg stockLevel
          avgDaily).days_until_stockout = 999)
    ∧ (0 < avgDaily →
      (checkInventoryRow productName category inventoryCfg stockLevel
          avgDaily).days_until_stockout
        = min (jsRound (stockLevel / (avgDaily : ℚ))) 999)
    ∧ (checkInventoryRow productName category inventoryCfg stockLevel
          avgDaily).days_until_stockout ≤ 999 := by
  refine ⟨?_, ?_, ?_⟩
  · intro h
    simp [checkInventoryRow, h]
  · intro h
    simp [checkInventoryRow, h]
  · simp only [checkInventoryRow]
    exact min_le_right _ _

/-- C7 witness: scenario B — zero average consumption reports exactly 999. -/
theorem c7_days_until_stockout_witness :
    ((0 : ℤ) = 0)
    ∧ (checkInventoryRow "Fries" "side" none 120 0).days_until_stockout = 999 :=
  ⟨rfl, (c7_days_until_stockout_amended "Fries" "side" none 120 0).1 rfl⟩

-- ═══════════════ LIST AGGREGATION LEMMAS ═══════════════

/-- Summing over nodup keys a function updated at one present key. -/
theorem sum_map_if_add {κ : Type} [BEq κ] [LawfulBEq κ]
    (k0 : κ) (c : ℚ) (f : κ → ℚ) :
    ∀ (K : List κ), K.Nodup → k0 ∈ K →
      (K.map (fun k => if k0 == k then c + f k else f k)).sum
        = c + (K.map f).sum
  | [], _, hmem => by simp at hmem
  | k :: K', hnd, hmem => by
    rcases List.mem_cons.mp hmem with heq | htail
    · subst heq
      have hnotin : k0 ∉ K' := (List.nodup_cons.mp hnd).1
      have hrest : K'.map (fun k => if k0 == k then c + f k else f k)
          = K'.map f := by
        apply List.map_congr_left
        intro a ha
        have : ¬(k0 == a) = true := by
          intro hcontra
          exact hnotin (by simpa [eq_of_beq hcontra] using ha)
        simp [this]
      simp [List.map_cons, List.sum_cons, hrest]
      ring
    · have hne : ¬(k0 == k) = true := by
        intro hcontra
        have := eq_of_beq hcontra
        subst this
        exact (List.nodup_cons.mp hnd).1 htail
      have ih := sum_map_if_add k0 c f K' (List.nodup_cons.mp hnd).2 htail
      simp [List.map_cons, List.sum_cons, hne, ih]
      ring

/-- Partition lemma: grouping a list by the distinct values of a key
(`$group`) and summing per group reproduces the total sum. -/
theorem sum_groups_eq_total {α κ : Type} [DecidableEq κ] [BEq κ] [LawfulBEq κ]
    (key : α → κ) (g : α → ℚ) :
    ∀ l : List α,
      (((l.map key).dedup).map
          (fun k => ((l.filter (fun a => key a == k)).map g).sum)).sum
        = (l.map g).sum
  | [] => by simp
  | a :: t => by
    by_cases hmem : key a ∈ t.map key
    · rw [List.map_cons, List.dedup_cons_of_mem hmem]
      have hstep : ((t.map key).dedup).map
            (fun k => (((a :: t).filter (fun x => key x == k)).map g).sum)
          = ((t.map key).dedup).map
            (fun k => if key a == k
              then g a + ((t.filter (fun x => key x == k)).map g).sum
              else ((t.filter (fun x => key x == k)).map g).sum) := by
        apply List.map_congr_left
        intro k _
        by_cases hk : (key a == k) = true
        · simp [List.filter_cons, hk]
        · simp [List.filter_cons, hk]
      rw [hstep, sum_map_if_add (key a) (g a)
        (fun k => ((t.filter (fun x => key x == k)).map g).sum)
        ((t.map key).dedup) (List.nodup_dedup _) (List.mem_dedup.mpr hmem)]
      rw [sum_groups_eq_total key g t]
      simp
    · rw [List.map_cons, List.dedup_cons_of_not_mem hmem]
      rw [List.map_cons, List.sum_cons]
      have hhead : (((a :: t).filter (fun x => key x == key a)).map g).sum
          = g a := by
        have hnil : t.filter (fun x => key x == key a) = [] := by
          rw [List.filter_eq_nil_iff]
          intro x hx hcontra
          exact hmem
            (by simpa [← eq_of_beq hcontra] using List.mem_map_of_mem key hx)
        simp [List.filter_cons, hnil]
      have htail : ((t.map key).dedup).map
            (fun k => (((a :: t).filter (fun x => key x == k)).map g).sum)
          = ((t.map key).dedup).map
            (fun k => ((t.filter (fun x => key x == k)).map g).sum) := by
        apply List.map_congr_left
        intro k hk
        have hne : ¬(key a == k) = true := by
          intro hcontra
          exact hmem (by simpa [eq_of_beq hcontra] using List.mem_dedup.mp hk)
        simp [List.filter_cons, hne]
      rw [hhead, htail, sum_groups_eq_total key g t]
      simp

/-- Sum of pointwise-close functions: totals differ by at most `length · ε`. -/
theorem sum_map_sub_abs_le {α : Type} (f g : α → ℚ) (ε : ℚ) :
    ∀ L : List α, (∀ x ∈ L, |f x - g x| ≤ ε) →
      |(L.map f).sum - (L.map g).sum| ≤ L.length * ε
  | [], _ => by simp
  | x :: t, h => by
    have ih := sum_map_sub_abs_le f g ε t
      (fun y hy => h y (List.mem_cons_of_mem _ hy))
    have hx := h x (List.mem_cons_self _ _)
    simp only [List.map_cons, List.sum_cons, List.length_cons]
    have hsplit : (f x + (t.map f).sum) - (g x + (t.map g).sum)
        = (f x - g x) + ((t.map f).sum - (t.map g).sum) := by ring
    rw [hsplit]
    calc |(f x - g x) + ((t.map f).sum - (t.map g).sum)|
        ≤ |f x - g x| + |(t.map f).sum - (t.map g).sum| := abs_add _ _
      _ ≤ ε + t.length * ε := add_le_add hx ih
      _ = (t.length + 1) * ε := by ring
      _ = ((t.length + 1 : ℕ) : ℚ) * ε := by push_cast; ring

theorem sum_map_div_mul : ∀ (L : List ℚ) (T : ℚ),
    (L.map (fun r => r / T * 100)).sum = L.sum / T * 100
  | [], _ => by simp
  | x :: t, T => by
    simp only [List.map_cons, List.sum_cons, sum_map_div_mul t T]
    ring

theorem exists_int_sum : ∀ L : List ℚ, (∀ x ∈ L, ∃ m : ℤ, x * 100 = m) →
    ∃ M : ℤ, L.sum * 100 = M
  | [], _ => ⟨0, by simp⟩
  | x :: t, h => by
    obtain ⟨m, hm⟩ := h x (List.mem_cons_self _ _)
    obtain ⟨M, hM⟩ := exists_int_sum t
      (fun y hy => h y (List.mem_cons_of_mem _ hy))
    exact ⟨m + M, by push_cast; simp only [List.sum_cons]; linarith⟩

-- ═══════════ SALES ANALYTICS AGGREGATOR (tools/analytics.js) ═══════════

/-- Embeds `buildDateFilter(days)`: keep sales with `date ≥ now - days`, or
everything when `days` is absent, zero or negative. -/
def buildDateFilter (days now : ℤ) : Sale → Bool :=
  if days ≤ 0 then fun _ => true else fun s => decide (now - days ≤ s.date)

/-- The `$group` revenue aggregate for one key value (`$sum` of
`$multiply: [price, quantity]`). -/
def keyRevenue (key : Sale → String) (sales : List Sale) (k : String) : ℚ :=
  ((sales.filter (fun s => key s == k)).map (fun s => s.price * s.quantity)).sum

/-- The `$group` quantity aggregate for one key value. -/
def keyQuantity (key : Sale → String) (sales : List Sale) (k : String) : ℚ :=
  ((sales.filter (fun s => key s == k)).map (·.quantity)).sum

/-- The `$group` order count (`$sum: 1`) for one key value. -/
def keyOrders (key : Sale → String) (sales : List Sale) (k : String) : ℕ :=
  (sales.filter (fun s => key s == k)).length

/-- The `$group` price sum, used for the `$avg` of prices. -/
def keyPriceSum (key : Sale → String) (sales : List Sale) (k : String) : ℚ :=
  ((sales.filter (fun s => key s == k)).map (·.price)).sum

/-- Embeds `getOverview`: one `$group: {_id: null}` over the matched sales; the
empty aggregation returns the zero-valued default object. -/
structure OverviewData where
  total_revenue : ℚ
  total_quantity : ℚ
  total_orders : ℕ
  avg_order_value : ℚ
  avg_price : ℚ
  product_count : ℕ
  channel_count : ℕ
deriving DecidableEq

def getOverview (sales : List Sale) : OverviewData :=
  if sales.isEmpty then ⟨0, 0, 0, 0, 0, 0, 0⟩
  else
    { total_revenue := mongoRound2 ((sales.map (fun s => s.price * s.quantity)).sum)
      total_quantity := (sales.map (·.quantity)).sum
      total_orders := sales.length
      avg_order_value :=
        mongoRound2 ((sales.map (fun s => s.price * s.quantity)).sum / sales.length)
      avg_price := mongoRound2 ((sales.map (·.price)).sum / sales.length)
      product_count := ((sales.map (·.product)).dedup).length
      channel_count := ((sales.map (·.purchaseType)).dedup).length }

/-- One `by_product` row. -/
structure ProductRowA where
  product : String
  revenue : ℚ
  quantity : ℚ
  orders : ℕ
  avg_price : ℚ
  revenue_pct : ℚ
deriving DecidableEq

/-- The distinct products of the matched sales, sorted by raw grouped
revenue descending (`$sort: {revenue: -1}` runs before the `$project`
rounding). -/
def byProductKeys (sales : List Sale) : List String :=
  ((sales.map (·.product)).dedup).insertionSort
    (fun a b => keyRevenue (·.product) sales b ≤ keyRevenue (·.product) sales a)

/-- One grouped-and-projected `by_product` row, before the JavaScript pass
that fills `revenue_pct`. -/
def mkProductRow (sales : List Sale) (p : String) : ProductRowA :=
  { product := p
    revenue := mongoRound2 (keyRevenue (·.product) sales p)
    quantity := keyQuantity (·.product) sales p
    orders := keyOrders (·.product) sales p
    avg_price :=
      mongoRound2 (keyPriceSum (·.product) sales p / keyOrders (·.product) sales p)
    revenue_pct := 0 }

/-- Embeds `getByProduct`: group, sort by revenue descending, round, then annotate
each row with its share of the total of the ROUNDED revenues
(`Math.round((r.revenue / totalRevenue) * 100 * 10) / 10`, or 0 when the
total is not positive). -/
def getByProduct (sales : List Sale) : List ProductRowA :=
  let results := (byProductKeys sales).map (mkProductRow sales)
  let totalRevenue := (results.map (·.revenue)).sum
  results.map (fun r =>
    { r with revenue_pct :=
        if 0 < totalRevenue then jsRound1 (r.revenue / totalRevenue * 100)
        else 0 })

/-- One `by_channel` row. -/
structure ChannelRowA where
  channel : String
  revenue : ℚ
  quantity : ℚ
  orders : ℕ
  revenue_pct : ℚ
deriving DecidableEq

def byChannelKeys (sales : List Sale) : List String :=
  ((sales.map (·.purchaseType)).dedup).insertionSort
    (fun a b =>
      keyRevenue (·.purchaseType) sales b ≤ keyRevenue (·.purchaseType) sales a)

def mkChannelRow (sales : List Sale) (k : String) : ChannelRowA :=
  { channel := k
    revenue := mongoRound2 (keyRevenue (·.purchaseType) sales k)
    quantity := keyQuantity (·.purchaseType) sales k
    orders := keyOrders (·.purchaseType) sales k
    revenue_pct := 0 }

def getByChannel (sales : List Sale) : List ChannelRowA :=
  let results := (byChannelKeys sales).map (mkChannelRow sales)
  let totalRevenue := (results.map (·.revenue)).sum
  results.map (fun r =>
    { r with revenue_pct :=
        if 0 < totalRevenue then jsRound1 (r.revenue / totalRevenue * 100)
        else 0 })

/-- One `trend` row; `period` is the `$dateToString` key. -/
structure TrendRow where
  period : String
  revenue : ℚ
  quantity : ℚ
  orders : ℕ
deriving DecidableEq

/-- Embeds `getTrend`: group by the formatted period, chronologically ascending
(`$sort: {_id: 1}`); `dateToString` is the store's date-truncation, passed
in as an abstract calendar parameter. -/
def getTrend (dateToString : ℤ → String) (sales : List Sale) : List TrendRow :=
  (((sales.map (fun s => dateToString s.date)).dedup).insertionSort (· ≤ ·)).map
    (fun k =>
      { period := k
        revenue := mongoRound2
          (((sales.filter (fun s => dateToString s.date == k)).map
              (fun s => s.price * s.quantity)).sum)
        quantity := ((sales.filter (fun s => dateToString s.date == k)).map
          (·.quantity)).sum
        orders := (sales.filter (fun s => dateToString s.date == k)).length })

/-- One `top_sellers` row. -/
structure TopRow where
  product : String
  total_quantity : ℚ
  revenue : ℚ
deriving DecidableEq

structure TopSellersData where
  by_quantity : List TopRow
  by_revenue : List TopRow
deriving DecidableEq

def mkTopRow (sales : List Sale) (p : String) : TopRow :=
  { product := p
    total_quantity := keyQuantity (·.product) sales p
    revenue := mongoRound2 (keyRevenue (·.product) sales p) }

/-- Embeds `getTopSellers`: two independent rankings of the grouped products —
by quantity and by revenue — each limited to the top `limit`. -/
def getTopSellers (sales : List Sale) (limit : ℕ) : TopSellersData :=
  { by_quantity :=
      ((((sales.map (·.product)).dedup).insertionSort
          (fun a b =>
            keyQuantity (·.product) sales b ≤ keyQuantity (·.product) sales a)).take
        limit).map (mkTopRow sales)
    by_revenue :=
      ((((sales.map (·.product)).dedup).insertionSort
          (fun a b =>
            keyRevenue (·.product) sales b ≤ keyRevenue (·.product) sales a)).take
        limit).map (mkTopRow sales) }

/-- The payload of a successful `get_sales_analytics` call. -/
inductive AnalyticsData
  | overview (d : OverviewData)
  | by_product (rows : List ProductRowA)
  | by_channel (rows : List ChannelRowA)
  | trend (rows : List TrendRow)
  | top_sellers (d : TopSellersData)
deriving DecidableEq

/-- The error payload returned for an unknown analysis type. -/
structure AnalyticsError where
  error : String
  available_types : List String
deriving DecidableEq

/-- The junk value produced when `analysisMap[analysis_type]` hits a
prototype-inherited member whose bare call `analysisFn()` (strict-mode
module code, `this` undefined) RETURNS instead of throwing:
`Object.prototype.toString` returns the tag string `"[object Undefined]"`,
`constructor` (the `Object` function) returns a fresh empty object, and
`isPrototypeOf` called with no argument returns `false`. -/
inductive JunkData
  | jsString (s : String)
  | emptyObject
  | jsFalse
deriving DecidableEq

/-- An MCP tool result of `get_sales_analytics`: a real analysis payload; a
success payload whose `data` is the junk value of a called
prototype-inherited member; the outer catch's `{error: message}` payload
(flagged `isError` but carrying no `available_types`; the engine-specific
`TypeError` message is elided); or the unknown-mode error payload. -/
inductive AnalyticsResult
  | ok (data : AnalyticsData)
  | okJunk (data : JunkData)
  | caught
  | err (payload : AnalyticsError)
deriving DecidableEq

/-- The `isError` flag of the MCP response: only the caught exception and
the unknown-mode error payload set it. -/
def AnalyticsResult.isError : AnalyticsResult → Bool
  | .ok _ => false
  | .okJunk _ => false
  | .caught => true
  | .err _ => true

/-- Embeds `Object.keys(analysisMap)`, in declaration order. -/
def validAnalysisTypes : List String :=
  ["overview", "by_product", "by_channel", "trend", "top_sellers"]

/-- The property names the object literal `analysisMap` inherits from
`Object.prototype`: for these, `analysisMap[analysis_type]` walks the
prototype chain and yields a truthy member (a built-in function, or
`Object.prototype` itself for the `__proto__` accessor), so the
`if (!analysisFn)` falsy guard does NOT fire. -/
def objectPrototypeKeys : List String :=
  ["constructor", "hasOwnProperty", "isPrototypeOf", "propertyIsEnumerable",
   "toLocaleString", "toString", "valueOf", "__defineGetter__",
   "__defineSetter__", "__lookupGetter__", "__lookupSetter__", "__proto__"]

/-- The `dateFormats[groupBy] || dateFormats.day` lookup. -/
def dateFormats (groupBy : String) : String :=
  if groupBy = "day" then "%Y-%m-%d"
  else if groupBy = "week" then "%Y-W%V"
  else if groupBy = "month" then "%Y-%m"
  else "%Y-%m-%d"

/-- Embeds `handleGetSalesAnalytics`: `analysisMap[analysis_type]` followed
by the `if (!analysisFn)` falsy guard and `await analysisFn()`.  The lookup
finds the five own keys first; failing those it continues on
`Object.prototype`, whose members are all truthy, so the guard does not
fire for those names either: calling the inherited member bare then either
returns a junk value (`"toString"`, `"constructor"`, `"isPrototypeOf"` —
a success payload) or throws a `TypeError` that the outer catch returns as
an `{error: message}` payload without `available_types`.  Only a name
absent from both the map and `Object.prototype` reaches the unknown-mode
error payload listing the valid modes. -/
def handleGetSalesAnalytics (dateToString : String → ℤ → String)
    (analysis_type : String) (days now : ℤ) (group_by : String)
    (sales : List Sale) : AnalyticsResult :=
  let matched := sales.filter (buildDateFilter days now)
  if analysis_type = "overview" then .ok (.overview (getOverview matched))
  else if analysis_type = "by_product" then
    .ok (.by_product (getByProduct matched))
  else if analysis_type = "by_channel" then
    .ok (.by_channel (getByChannel matched))
  else if analysis_type = "trend" then
    .ok (.trend (getTrend (dateToString (dateFormats group_by)) matched))
  else if analysis_type = "top_sellers" then
    .ok (.top_sellers (getTopSellers matched 5))
  else if analysis_type = "toString" then
    .okJunk (.jsString "[object Undefined]")
  else if analysis_type = "constructor" then .okJunk .emptyObject
  else if analysis_type = "isPrototypeOf" then .okJunk .jsFalse
  else if analysis_type ∈ objectPrototypeKeys then .caught
  else
    .err ⟨"Unknown analysis type: \"" ++ analysis_type ++ "\"",
      validAnalysisTypes⟩

-- ═══════════ THEOREMS: UNKNOWN ANALYSIS TYPE (C10) ═══════════

/-- C10 counterexample: `"toString"` is not one of the five supported modes,
yet `analysisMap["toString"]` finds the truthy inherited
`Object.prototype.toString`, the falsy guard does not fire, and the handler
returns a SUCCESS payload (`data = "[object Undefined]"`, `isError` unset)
instead of an error result listing the valid mode names. -/
theorem c10_unknown_mode_counterexample :
    "toString" ∉ validAnalysisTypes
    ∧ handleGetSalesAnalytics (fun _ _ => "") "toString" 30 0 "day" []
        = .okJunk (.jsString "[object Undefined]")
    ∧ (handleGetSalesAnalytics (fun _ _ => "") "toString" 30 0 "day"
        []).isError = false := by
  refine ⟨by decide, by decide, by decide⟩

/-- C10 (amended): any `analysis_type` that is neither one of the five
supported modes nor one of the property names inherited from
`Object.prototype` yields the error result carrying the list of valid mode
names, flagged `isError`, rather than silently running a default
analysis.  (For an inherited name the falsy guard does not fire: the call
yields either a junk success payload or a caught `TypeError` reported
without the valid-modes list.) -/
theorem c10_unknown_mode_error (dateToString : String → ℤ → String)
    (analysis_type : String) (days now : ℤ) (group_by : String)
    (sales : List Sale) (h : analysis_type ∉ validAnalysisTypes)
    (hproto : analysis_type ∉ objectPrototypeKeys) :
    handleGetSalesAnalytics dateToString analysis_type days now group_by sales
      = .err ⟨"Unknown analysis type: \"" ++ analysis_type ++ "\"",
          validAnalysisTypes⟩
    ∧ (handleGetSalesAnalytics dateToString analysis_type days now group_by
        sales).isError = true := by
  simp only [validAnalysisTypes, List.mem_cons, List.mem_singleton,
    not_or] at h
  obtain ⟨h1, h2, h3, h4, h5, -⟩ := h
  have hts : analysis_type ≠ "toString" := by
    intro hcontra
    subst hcontra
    exact hproto (by decide)
  have hcon : analysis_type ≠ "constructor" := by
    intro hcontra
    subst hcontra
    exact hproto (by decide)
  have hipo : analysis_type ≠ "isPrototypeOf" := by
    intro hcontra
    subst hcontra
    exact hproto (by decide)
  constructor
  · simp only [handleGetSalesAnalytics, if_neg h1, if_neg h2, if_neg h3,
      if_neg h4, if_neg h5, if_neg hts, if_neg hcon, if_neg hipo,
      if_neg hproto]
  · simp only [handleGetSalesAnalytics, if_neg h1, if_neg h2, if_neg h3,
      if_neg h4, if_neg h5, if_neg hts, if_neg hcon, if_neg hipo,
      if_neg hproto, AnalyticsResult.isError]

/-- C10 witness: `"foo"` is in neither the map nor `Object.prototype` and
produces the unknown-mode error result. -/
theorem c10_unknown_mode_witness :
    ("foo" ∉ validAnalysisTypes ∧ "foo" ∉ objectPrototypeKeys)
    ∧ (handleGetSalesAnalytics (fun _ _ => "") "foo" 30 0 "day" []
        = .err ⟨"Unknown analysis type: \"foo\"", validAnalysisTypes⟩
      ∧ (handleGetSalesAnalytics (fun _ _ => "") "foo" 30 0 "day"
          []).isError = true) :=
  ⟨⟨by decide, by decide⟩,
   c10_unknown_mode_error (fun _ _ => "") "foo" 30 0 "day" [] (by decide)
     (by decide)⟩

-- ═══════════ THEOREMS: REVENUE IDENTITIES (C4) ═══════════

theorem byProduct_revenue_total_aux (matched : List Sale)
    (hne : matched ≠ [])
    (hq : ∀ p ∈ (matched.map (·.product)).dedup,
      ∃ m : ℤ, keyRevenue (·.product) matched p * 100 = m) :
    ((getByProduct matched).map (·.revenue)).sum
      = (getOverview matched).total_revenue := by
  have hrows : (getByProduct matched).map (·.revenue)
      = ((byProductKeys matched).map (mkProductRow matched)).map (·.revenue) := by
    simp only [getByProduct, List.map_map]
    rfl
  have hmk : ((byProductKeys matched).map (mkProductRow matched)).map (·.revenue)
      = (byProductKeys matched).map
          (fun p => mongoRound2 (keyRevenue (·.product) matched p)) := by
    simp only [List.map_map]
    rfl
  have hperm : List.Perm (byProductKeys matched)
      ((matched.map (·.product)).dedup) :=
    List.perm_insertionSort _ _
  have hsum1 : ((byProductKeys matched).map
        (fun p => mongoRound2 (keyRevenue (·.product) matched p))).sum
      = (((matched.map (·.product)).dedup).map
        (fun p => mongoRound2 (keyRevenue (·.product) matched p))).sum :=
    (hperm.map _).sum_eq
  have hfix : (((matched.map (·.product)).dedup).map
        (fun p => mongoRound2 (keyRevenue (·.product) matched p)))
      = ((matched.map (·.product)).dedup).map
          (fun p => keyRevenue (·.product) matched p) := by
    apply List.map_congr_left
    intro p hp
    obtain ⟨m, hm⟩ := hq p hp
    exact mongoRound2_of_int_mul _ m hm
  have hpart : (((matched.map (·.product)).dedup).map
        (fun p => keyRevenue (·.product) matched p)).sum
      = (matched.map (fun s => s.price * s.quantity)).sum := by
    simpa [keyRevenue] using
      sum_groups_eq_total (fun s : Sale => s.product)
        (fun s => s.price * s.quantity) matched
  obtain ⟨M, hM⟩ : ∃ M : ℤ,
      (matched.map (fun s => s.price * s.quantity)).sum * 100 = M := by
    rw [← hpart]
    apply exists_int_sum
    intro x hx
    obtain ⟨p, hp, rfl⟩ := List.mem_map.mp hx
    exact hq p hp
  have hov : (getOverview matched).total_revenue
      = mongoRound2 ((matched.map (fun s => s.price * s.quantity)).sum) := by
    cases matched with
    | nil => exact absurd rfl hne
    | cons a t => rfl
  rw [hrows, hmk, hsum1, hfix, hpart, hov, mongoRound2_of_int_mul _ M hM]

theorem byProduct_pct_sum_aux (matched : List Sale)
    (hT : 0 < ((getByProduct matched).map (·.revenue)).sum) :
    |((getByProduct matched).map (·.revenue_pct)).sum - 100|
      ≤ ((getByProduct matched).length : ℚ) / 20 := by
  have hrevs : (getByProduct matched).map (·.revenue)
      = ((byProductKeys matched).map (mkProductRow matched)).map (·.revenue) := by
    simp only [getByProduct]
    rw [List.map_map]
    apply List.map_congr_left
    intro r _
    rfl
  rw [hrevs] at hT
  have hpcts : (getByProduct matched).map (·.revenue_pct)
      = ((byProductKeys matched).map (mkProductRow matched)).map
          (fun r => jsRound1 (r.revenue
            / (((byProductKeys matched).map (mkProductRow matched)).map
                (·.revenue)).sum * 100)) := by
    simp only [getByProduct]
    rw [List.map_map]
    apply List.map_congr_left
    intro r _
    show (if 0 < (((byProductKeys matched).map (mkProductRow matched)).map
          (·.revenue)).sum
        then jsRound1 (r.revenue
          / (((byProductKeys matched).map (mkProductRow matched)).map
              (·.revenue)).sum * 100)
        else 0) = _
    rw [if_pos hT]
  have hlen : (getByProduct matched).length
      = ((byProductKeys matched).map (mkProductRow matched)).length := by
    simp [getByProduct]
  have hbound : ∀ r ∈ (byProductKeys matched).map (mkProductRow matched),
      |jsRound1 (r.revenue
          / (((byProductKeys matched).map (mkProductRow matched)).map
              (·.revenue)).sum * 100)
        - r.revenue
          / (((byProductKeys matched).map (mkProductRow matched)).map
              (·.revenue)).sum * 100| ≤ 1/20 :=
    fun r _ => abs_jsRound1_sub_le _
  have hmain := sum_map_sub_abs_le _ _ (1/20)
    ((byProductKeys matched).map (mkProductRow matched)) hbound
  have hexact : (((byProductKeys matched).map (mkProductRow matched)).map
        (fun r => r.revenue
          / (((byProductKeys matched).map (mkProductRow matched)).map
              (·.revenue)).sum * 100)).sum = 100 := by
    have hcomp : ((byProductKeys matched).map (mkProductRow matched)).map
          (fun r => r.revenue
            / (((byProductKeys matched).map (mkProductRow matched)).map
                (·.revenue)).sum * 100)
        = (((byProductKeys matched).map (mkProductRow matched)).map
            (·.revenue)).map
            (fun x => x
              / (((byProductKeys matched).map (mkProductRow matched)).map
                  (·.revenue)).sum * 100) := by
      simp [List.map_map]
    rw [hcomp, sum_map_div_mul, div_self (ne_of_gt hT)]
    norm_num
  rw [hpcts, hlen]
  calc |(((byProductKeys matched).map (mkProductRow matched)).map
          (fun r => jsRound1 (r.revenue
            / (((byProductKeys matched).map (mkProductRow matched)).map
                (·.revenue)).sum * 100))).sum - 100|
      = |(((byProductKeys matched).map (mkProductRow matched)).map
            (fun r => jsRound1 (r.revenue
              / (((byProductKeys matched).map (mkProductRow matched)).map
                  (·.revenue)).sum * 100))).sum
          - (((byProductKeys matched).map (mkProductRow matched)).map
              (fun r => r.revenue
                / (((byProductKeys matched).map (mkProductRow matched)).map
                    (·.revenue)).sum * 100)).sum| := by rw [hexact]
    _ ≤ ((byProductKeys matched).map (mkProductRow matched)).length * (1/20) :=
        hmain
    _ = (((byProductKeys matched).map (mkProductRow matched)).length : ℚ) / 20 :=
        by ring

/-- C4 (amended): for every non-empty date-filtered transaction set, the sum
of the `by_product` revenues equals the overview `total_revenue` whenever
every product's raw revenue is an integer multiple of 0.01 (e.g. 2-decimal
prices with integer quantities); and whenever the total of the rounded
revenues is positive, the `revenue_pct` fields sum to 100 within the
1-decimal rounding tolerance of 0.05 per row. -/
theorem c4_revenue_identities_amended (sales : List Sale) (days now : ℤ)
    (hne : sales.filter (buildDateFilter days now) ≠ []) :
    ((∀ p ∈ ((sales.filter (buildDateFilter days now)).map (·.product)).dedup,
        ∃ m : ℤ, keyRevenue (·.product)
          (sales.filter (buildDateFilter days now)) p * 100 = m) →
      ((getByProduct (sales.filter (buildDateFilter days now))).map
          (·.revenue)).sum
        = (getOverview (sales.filter (buildDateFilter days now))).total_revenue)
    ∧ (0 < ((getByProduct (sales.filter (buildDateFilter days now))).map
          (·.revenue)).sum →
      |((getByProduct (sales.filter (buildDateFilter days now))).map
          (·.revenue_pct)).sum - 100|
        ≤ ((getByProduct (sales.filter (buildDateFilter days now))).length : ℚ)
            / 20) :=
  ⟨fun hq => byProduct_revenue_total_aux _ hne hq,
   fun hT => byProduct_pct_sum_aux _ hT⟩

/-- C4 counterexample data: two products, each with one sale of price 0.004
and quantity 1 (raw revenues of 0.004 each round to 0.00 per product but the
overview's 0.008 rounds to 0.01). -/
def c4Sales : List Sale :=
  [⟨1, 0, "Burgers", 1/250, 1, "Online", "Cash"⟩,
   ⟨2, 0, "Fries", 1/250, 1, "Online", "Cash"⟩]

/-- C4 counterexample: on a non-empty date-filtered set the sum of
`by_product` revenues is 0.00 while the overview `total_revenue` is 0.01 —
the claimed equality fails — and the `revenue_pct` fields sum to 0, not
approximately 100. -/
theorem c4_revenue_identities_counterexample :
    c4Sales.filter (buildDateFilter 0 0) = c4Sales
    ∧ ((getByProduct c4Sales).map (·.revenue)).sum = 0
    ∧ (getOverview c4Sales).total_revenue = 1/100
    ∧ ((getByProduct c4Sales).map (·.revenue)).sum
        ≠ (getOverview c4Sales).total_revenue
    ∧ ((getByProduct c4Sales).map (·.revenue_pct)).sum = 0 := by
  have hfil : c4Sales.filter (buildDateFilter 0 0) = c4Sales := by
    simp [buildDateFilter]
  have hdedup : (c4Sales.map (·.product)).dedup = ["Burgers", "Fries"] := by
    decide
  have hkB : keyRevenue (·.product) c4Sales "Burgers" = 1/250 := by
    simp [keyRevenue, c4Sales]
  have hkF : keyRevenue (·.product) c4Sales "Fries" = 1/250 := by
    simp [keyRevenue, c4Sales]
  have hkeys : byProductKeys c4Sales = ["Burgers", "Fries"] := by
    simp only [byProductKeys, hdedup, List.insertionSort, List.orderedInsert,
      hkB, hkF]
    norm_num
  have hr250 : mongoRound2 (1/250) = 0 := by
    have h0 : mongoRoundInt ((1:ℚ)/250 * 100) = 0 := by
      apply mongoRoundInt_eq_of_abs_lt
      rw [show (((0:ℤ):ℚ)) = 0 by norm_num, sub_zero,
        abs_of_nonneg (by norm_num)]
      norm_num
    rw [mongoRound2, h0]
    norm_num
  have hrevB : (mkProductRow c4Sales "Burgers").revenue = 0 := by
    show mongoRound2 (keyRevenue (·.product) c4Sales "Burgers") = 0
    rw [hkB, hr250]
  have hrevF : (mkProductRow c4Sales "Fries").revenue = 0 := by
    show mongoRound2 (keyRevenue (·.product) c4Sales "Fries") = 0
    rw [hkF, hr250]
  have hrevlist : ((byProductKeys c4Sales).map (mkProductRow c4Sales)).map
      (·.revenue) = [0, 0] := by
    rw [hkeys]
    simp [hrevB, hrevF]
  have hT0 : (((byProductKeys c4Sales).map (mkProductRow c4Sales)).map
      (·.revenue)).sum = 0 := by
    rw [hrevlist]
    norm_num
  have hrevs : (getByProduct c4Sales).map (·.revenue)
      = ((byProductKeys c4Sales).map (mkProductRow c4Sales)).map (·.revenue) := by
    simp only [getByProduct]
    rw [List.map_map]
    apply List.map_congr_left
    intro r _
    rfl
  have hsumrev : ((getByProduct c4Sales).map (·.revenue)).sum = 0 := by
    rw [hrevs, hT0]
  have hsumraw : (c4Sales.map (fun s => s.price * s.quantity)).sum = 1/125 := by
    simp [c4Sales]
    norm_num
  have hov : (getOverview c4Sales).total_revenue = 1/100 := by
    have h1 : (getOverview c4Sales).total_revenue
        = mongoRound2 ((c4Sales.map (fun s => s.price * s.quantity)).sum) := rfl
    rw [h1, hsumraw]
    have h0 : mongoRoundInt ((1:ℚ)/125 * 100) = 1 := by
      apply mongoRoundInt_eq_of_abs_lt
      rw [show (((1:ℤ):ℚ)) = 1 by norm_num,
        abs_of_nonpos (by norm_num)]
      norm_num
    rw [mongoRound2, h0]
    norm_num
  have hpctzero : (getByProduct c4Sales).map (·.revenue_pct)
      = ((byProductKeys c4Sales).map (mkProductRow c4Sales)).map
          (fun _ => (0:ℚ)) := by
    simp only [getByProduct]
    rw [List.map_map]
    apply List.map_congr_left
    intro r _
    show (if 0 < (((byProductKeys c4Sales).map (mkProductRow c4Sales)).map
        (·.revenue)).sum then _ else (0:ℚ)) = (0:ℚ)
    rw [if_neg (by rw [hT0]; norm_num)]
  have hpcts : ((getByProduct c4Sales).map (·.revenue_pct)).sum = 0 := by
    rw [hpctzero, hkeys]
    norm_num
  exact ⟨hfil, hsumrev, hov, by rw [hsumrev, hov]; norm_num, hpcts⟩

/-- C4 witness data: one 2-decimal sale, so the identity is exact. -/
def c4WSales : List Sale := [⟨1, 0, "Burgers", 2, 1, "Online", "Cash"⟩]

/-- C4 witness: with a 2-decimal price, the hypotheses of the amended C4
hold and the by-product revenue sum equals the overview total. -/
theorem c4_revenue_identities_witness :
    c4WSales.filter (buildDateFilter 30 0) ≠ []
    ∧ ((getByProduct (c4WSales.filter (buildDateFilter 30 0))).map
        (·.revenue)).sum
      = (getOverview (c4WSales.filter (buildDateFilter 30 0))).total_revenue := by
  refine ⟨by decide, (c4_revenue_identities_amended c4WSales 30 0 (by decide)).1 ?_⟩
  intro p hp
  have hfil : c4WSales.filter (buildDateFilter 30 0) = c4WSales := by
    simp [buildDateFilter, c4WSales]
  rw [hfil] at hp ⊢
  have hpB : p = "Burgers" := by
    have hd : (c4WSales.map (·.product)).dedup = ["Burgers"] := by decide
    rw [hd] at hp
    simpa using hp
  subst hpB
  refine ⟨200, ?_⟩
  have hk : keyRevenue (·.product) c4WSales "Burgers" = 2 := by
    simp [keyRevenue, c4WSales]
  rw [hk]
  norm_num

-- ═══════════════ PROFIT ENGINE (tools/profit.js) ═══════════════

/-- One value of the `getCostMap()` lookup built from the Products
collection. -/
structure CostInfo where
  costPrice : ℚ
  sellPrice : ℚ
  marginPercent : ℚ
  category : String
deriving DecidableEq

/-- One row of `getProductProfitBreakdown`. -/
structure ProfitRow where
  product : String
  category : String
  revenue : ℚ
  cost_of_goods : ℚ
  gross_profit : ℚ
  margin_percent : ℚ
  units_sold : ℚ
  orders : ℕ
  avg_selling_price : ℚ
  cost_per_unit : ℚ
  profit_per_unit : ℚ
deriving DecidableEq

/-- The JavaScript mapping step of `getProductProfitBreakdown` applied to one
grouped product: COGS is `costPrice × totalQuantity` with `costPrice`
defaulting to 0 for an unconfigured product (`costMap[item._id] ||
{costPrice: 0}`); gross profit is computed on the raw aggregates and then
each monetary output is rounded to 2 decimals and the margin to 1 decimal;
the margin is 0 unless raw revenue is positive. -/
def mkProfitRow (costMap : String → Option CostInfo) (sales : List Sale)
    (p : String) : ProfitRow :=
  let revenue := keyRevenue (·.product) sales p
  let totalQuantity := keyQuantity (·.product) sales p
  let orderCount := keyOrders (·.product) sales p
  let avgPrice := keyPriceSum (·.product) sales p / (orderCount : ℚ)
  let costPrice := ((costMap p).map (·.costPrice)).getD 0
  let cogs := costPrice * totalQuantity
  let grossProfit := revenue - cogs
  let marginPct := if 0 < revenue then grossProfit / revenue * 100 else 0
  { product := p
    category := ((costMap p).map (·.category)).getD "unknown"
    revenue := jsRound2 revenue
    cost_of_goods := jsRound2 cogs
    gross_profit := jsRound2 grossProfit
    margin_percent := jsRound1 marginPct
    units_sold := totalQuantity
    orders := orderCount
    avg_selling_price := jsRound2 avgPrice
    cost_per_unit := costPrice
    profit_per_unit := jsRound2 (avgPrice - costPrice) }

/-- Embeds `getProductProfitBreakdown`: the same group-by-product /
sort-by-raw-revenue-descending pipeline as the analytics aggregator, then
the per-row profit join in JavaScript. -/
def getProductProfitBreakdown (sales : List Sale)
    (costMap : String → Option CostInfo) : List ProfitRow :=
  (byProductKeys sales).map (mkProfitRow costMap sales)

-- ═══════════════ THEOREMS: PROFIT IDENTITY (C5) ═══════════════

/-- C5 counterexample data: one sale of `Fries` at price 1.004 (quantity 1)
against a cost price of 0.506. -/
def c5Sales : List Sale := [⟨1, 0, "Fries", 251/250, 1, "Online", "Cash"⟩]

def c5CostMap : String → Option CostInfo := fun p =>
  if p = "Fries" then some ⟨253/500, 349/100, 77, "side"⟩ else none

/-- C5 counterexample: the reported row is revenue 1.00, cost 0.51, gross
profit 0.50 — and `0.50 ≠ 1.00 − 0.51`, refuting the exact identity, since
`gross_profit` rounds the raw difference rather than subtracting the rounded
fields. -/
theorem c5_profit_identity_counterexample :
    (getProductProfitBreakdown c5Sales c5CostMap).map
        (fun r => (r.revenue, r.cost_of_goods, r.gross_profit))
      = [(1, 51/100, 1/2)]
    ∧ ((1:ℚ)/2 ≠ 1 - 51/100) := by
  have hdedup : (c5Sales.map (·.product)).dedup = ["Fries"] := by decide
  have hkeys : byProductKeys c5Sales = ["Fries"] := by
    simp only [byProductKeys, hdedup, List.insertionSort, List.orderedInsert]
  have hkrev : keyRevenue (·.product) c5Sales "Fries" = 251/250 := by
    simp [keyRevenue, c5Sales]
  have hkqty : keyQuantity (·.product) c5Sales "Fries" = 1 := by
    simp [keyQuantity, c5Sales]
  have hcost : ((c5CostMap "Fries").map (·.costPrice)).getD 0 = 253/500 := by
    simp [c5CostMap]
  have e1 : jsRound2 (251/250) = 1 := by
    have h : jsRound ((251:ℚ)/250 * 100) = 100 := jsRound_eq_iff.mpr (by norm_num)
    rw [jsRound2, h]
    norm_num
  have e2 : jsRound2 (253/500 * 1) = 51/100 := by
    have h : jsRound ((253:ℚ)/500 * 1 * 100) = 51 := jsRound_eq_iff.mpr (by norm_num)
    rw [jsRound2, h]
    norm_num
  have e3 : jsRound2 (251/250 - 253/500 * 1) = 1/2 := by
    have h : jsRound (((251:ℚ)/250 - 253/500 * 1) * 100) = 50 :=
      jsRound_eq_iff.mpr (by norm_num)
    rw [jsRound2, h]
    norm_num
  refine ⟨?_, by norm_num⟩
  simp only [getProductProfitBreakdown, hkeys, List.map_cons, List.map_nil,
    mkProfitRow, hkrev, hkqty, hcost, e1, e2, e3]

/-- C5 (amended): in every per-product profit row, `gross_profit` is the
2-decimal rounding of the RAW difference `rawRevenue − rawCOGS`;
`margin_percent` is 0 whenever the product's raw revenue is 0; and the exact
identity `gross_profit = revenue − cost_of_goods` holds whenever the raw
revenue and raw COGS are each integer multiples of 0.01 (e.g. 2-decimal
prices and costs with integer quantities). -/
theorem c5_profit_identity_amended (sales : List Sale)
    (costMap : String → Option CostInfo) (row : ProfitRow)
    (hmem : row ∈ getProductProfitBreakdown sales costMap) :
    row.gross_profit
      = jsRound2 (keyRevenue (·.product) sales row.product
          - ((costMap row.product).map (·.costPrice)).getD 0
            * keyQuantity (·.product) sales row.product)
    ∧ (keyRevenue (·.product) sales row.product = 0 → row.margin_percent = 0)
    ∧ ((∃ a : ℤ, keyRevenue (·.product) sales row.product * 100 = a) →
       (∃ b : ℤ, ((costMap row.product).map (·.costPrice)).getD 0
          * keyQuantity (·.product) sales row.product * 100 = b) →
       row.gross_profit = row.revenue - row.cost_of_goods) := by
  obtain ⟨p, _, rfl⟩ := List.mem_map.mp hmem
  have hprod : (mkProfitRow costMap sales p).product = p := rfl
  rw [hprod]
  refine ⟨rfl, ?_, ?_⟩
  · intro h0
    show jsRound1 (if 0 < keyRevenue (·.product) sales p then _ else 0) = 0
    rw [if_neg (by rw [h0]; norm_num), jsRound1,
      show ((0:ℚ) * 10) = ((0:ℤ):ℚ) by norm_num, jsRound_intCast]
    norm_num
  · rintro ⟨a, ha⟩ ⟨b, hb⟩
    have h1 := jsRound2_of_int_mul _ a ha
    have h2 := jsRound2_of_int_mul _ b hb
    have h3 := jsRound2_of_int_mul
      (keyRevenue (·.product) sales p
        - ((costMap p).map (·.costPrice)).getD 0
          * keyQuantity (·.product) sales p)
      (a - b) (by push_cast; linarith [ha, hb])
    show jsRound2 _ = jsRound2 _ - jsRound2 _
    rw [h1, h2]
    exact h3

/-- C5 witness data: a 2-decimal world — `Fries` at 3.49 × 2 with cost
0.80. -/
def c5WSales : List Sale := [⟨1, 0, "Fries", 349/100, 2, "Online", "Cash"⟩]

def c5WCostMap : String → Option CostInfo := fun p =>
  if p = "Fries" then some ⟨4/5, 349/100, 77, "side"⟩ else none

/-- C5 witness: with 2-decimal raw revenue and COGS the profit identity is
exact on the emitted row. -/
theorem c5_profit_identity_witness :
    mkProfitRow c5WCostMap c5WSales "Fries"
        ∈ getProductProfitBreakdown c5WSales c5WCostMap
    ∧ (mkProfitRow c5WCostMap c5WSales "Fries").gross_profit
        = (mkProfitRow c5WCostMap c5WSales "Fries").revenue
          - (mkProfitRow c5WCostMap c5WSales "Fries").cost_of_goods := by
  have hdedup : (c5WSales.map (·.product)).dedup = ["Fries"] := by decide
  have hkeys : byProductKeys c5WSales = ["Fries"] := by
    simp only [byProductKeys, hdedup, List.insertionSort, List.orderedInsert]
  have hmem : mkProfitRow c5WCostMap c5WSales "Fries"
      ∈ getProductProfitBreakdown c5WSales c5WCostMap := by
    rw [getProductProfitBreakdown, hkeys]
    exact List.mem_map_of_mem _ (List.mem_singleton.mpr rfl)
  refine ⟨hmem, ?_⟩
  have hkrev : keyRevenue (·.product) c5WSales "Fries" = 349/50 := by
    simp [keyRevenue, c5WSales]
    norm_num
  have hkqty : keyQuantity (·.product) c5WSales "Fries" = 2 := by
    simp [keyQuantity, c5WSales]
  have hcost : ((c5WCostMap "Fries").map (·.costPrice)).getD 0 = 4/5 := by
    simp [c5WCostMap]
  refine (c5_profit_identity_amended c5WSales c5WCostMap _ hmem).2.2
    ⟨698, ?_⟩ ⟨160, ?_⟩
  · show keyRevenue (·.product) c5WSales "Fries" * 100 = (698 : ℤ)
    rw [hkrev]
    norm_num
  · show ((c5WCostMap "Fries").map (·.costPrice)).getD 0
        * keyQuantity (·.product) c5WSales "Fries" * 100 = (160 : ℤ)
    rw [hcost, hkqty]
    norm_num

-- ═══════════ DEMAND FORECAST ENGINE (tools/forecast.js) ═══════════

/-- One row of the fallback's `$group` by (date, dayOfWeek). -/
structure FallbackDay where
  date : ℤ
  dayOfWeek : ℕ
  dailyQty : ℚ
  dailyRevenue : ℚ
deriving DecidableEq

/-- The `$match` + `$group` + `$sort` stage of `movingAverageFallback`:
last-30-day sales (of one product, or all when `product = "all"`), grouped
into one row per sale day, dates ascending.  `dayOfWeekOf` is the store's
`$dayOfWeek` minus 1 (0 = Sunday), an abstract calendar parameter. -/
def fallbackDailyData (sales : List Sale) (product : String) (now : ℤ)
    (dayOfWeekOf : ℤ → ℕ) : List FallbackDay :=
  let matched := sales.filter (fun s =>
    (product == "all" || s.product == product) && decide (now - 30 ≤ s.date))
  (((matched.map (·.date)).dedup).insertionSort (· ≤ ·)).map
    (fun d =>
      { date := d
        dayOfWeek := dayOfWeekOf d
        dailyQty := ((matched.filter (fun s => s.date == d)).map
          (·.quantity)).sum
        dailyRevenue := ((matched.filter (fun s => s.date == d)).map
          (fun s => s.price * s.quantity)).sum })

/-- One entry of the fallback's `daily_forecast`. -/
structure ForecastDay where
  date : ℤ
  day_name : String
  predicted_quantity : ℤ
  predicted_revenue : ℚ
deriving DecidableEq, Inhabited

def dayNames : List String :=
  ["Sunday", "Monday", "Tuesday", "Wednesday", "Thursday", "Friday",
   "Saturday"]

structure PeakDay where
  date : ℤ
  day_name : String
  quantity : ℤ
deriving DecidableEq

structure FallbackSummary where
  total_predicted_quantity : ℤ
  avg_daily_predicted : ℤ
  peak_day : PeakDay
deriving DecidableEq

structure FallbackMetadata where
  product : String
  forecast_days : ℕ
  model : String
  confidence : String
  ml_service : String
deriving DecidableEq

structure FallbackResult where
  metadata : FallbackMetadata
  summary : FallbackSummary
  daily_forecast : List ForecastDay
deriving DecidableEq

/-- The terminal no-data error object of the fallback. -/
structure FallbackError where
  error : String
  suggestion : String
deriving DecidableEq

/-- Embeds `movingAverageFallback`: overall daily averages over the 30-day window,
per-weekday multipliers `Math.round((dayAvg/avgDaily)*100)/100` (1 when the
overall average is not positive), and per future day the prediction
`Math.max(0, Math.round(avgDaily × dowMult × variance))` where the variance
draw is an arbitrary input (`0.9 + Math.random() * 0.2` in the source) and a
missing or zero multiplier falls back to 1 (`dowMultipliers[dow] || 1.0`).
Zero historical data is the terminal error object. -/
def movingAverageFallback (sales : List Sale) (product : String)
    (daysAhead : ℕ) (now : ℤ) (dayOfWeekOf : ℤ → ℕ) (variance : ℕ → ℚ) :
    Except FallbackError FallbackResult :=
  let dailyData := fallbackDailyData sales product now dayOfWeekOf
  if dailyData.isEmpty then
    .error ⟨"No historical sales data found for \"" ++ product
        ++ "\". Cannot generate forecast.",
      "Try running the seed script first, or check the product name."⟩
  else
    let totalQty := (dailyData.map (·.dailyQty)).sum
    let totalRevenue := (dailyData.map (·.dailyRevenue)).sum
    let avgDaily := totalQty / (dailyData.length : ℚ)
    let avgRevenue := totalRevenue / (dailyData.length : ℚ)
    let dowMultiplier : ℕ → Option ℚ := fun dow =>
      let qs := (dailyData.filter (fun d => d.dayOfWeek == dow)).map (·.dailyQty)
      if qs.isEmpty then none
      else some (if 0 < avgDaily
        then jsRound2 ((qs.sum / (qs.length : ℚ)) / avgDaily)
        else 1)
    let predictions := (List.range daysAhead).map (fun (i : ℕ) =>
      let futureDate := now + ((i : ℤ) + 1)
      let dow := dayOfWeekOf futureDate
      let dowMult : ℚ := match dowMultiplier dow with
        | none => 1
        | some m => if m = 0 then 1 else m
      { date := futureDate
        day_name := dayNames.getD dow ""
        predicted_quantity :=
          max 0 (jsRound (avgDaily * dowMult * variance (i + 1)))
        predicted_revenue :=
          max 0 (jsRound2 (avgRevenue * dowMult * variance (i + 1))) })
    let totalPredQty := (predictions.map (·.predicted_quantity)).sum
    let peak := predictions.foldl
      (fun mx p => if mx.predicted_quantity < p.predicted_quantity then p
        else mx)
      predictions.headI
    .ok
      { metadata := ⟨product, daysAhead, "moving_average_fallback", "low",
          "disconnected"⟩
        summary := ⟨totalPredQty,
          jsRound ((totalPredQty : ℚ) / (daysAhead : ℚ)),
          ⟨peak.date, peak.day_name, peak.predicted_quantity⟩⟩
        daily_forecast := predictions }

-- ═══════════ THEOREMS: FALLBACK FORECAST SHAPE (C8) ═══════════

/-- C8: for every horizon `N ≥ 1`, every non-empty 30-day history and EVERY
choice of the random variance draws, the fallback succeeds with exactly `N`
daily entries, each predicted quantity non-negative, and the summary total
equal to the sum of the entries' predicted quantities. -/
theorem c8_fallback_shape (sales : List Sale) (product : String)
    (daysAhead : ℕ) (now : ℤ) (dayOfWeekOf : ℤ → ℕ) (variance : ℕ → ℚ)
    (_hN : 1 ≤ daysAhead)
    (hne : fallbackDailyData sales product now dayOfWeekOf ≠ []) :
    ∃ r : FallbackResult,
      movingAverageFallback sales product daysAhead now dayOfWeekOf variance
        = .ok r
      ∧ r.daily_forecast.length = daysAhead
      ∧ (∀ p ∈ r.daily_forecast, 0 ≤ p.predicted_quantity)
      ∧ r.summary.total_predicted_quantity
          = (r.daily_forecast.map (·.predicted_quantity)).sum := by
  have hemp : (fallbackDailyData sales product now dayOfWeekOf).isEmpty
      = false := by
    cases h : fallbackDailyData sales product now dayOfWeekOf with
    | nil => exact absurd h hne
    | cons a t => rfl
  simp only [movingAverageFallback, hemp, Bool.false_eq_true, if_false]
  refine ⟨_, rfl, ?_, ?_, rfl⟩
  · simp
  · intro p hp
    simp only [List.mem_map] at hp
    obtain ⟨i, _, rfl⟩ := hp
    exact le_max_left 0 _

/-- C8 witness data: a single sale one day back. -/
def c8Sales : List Sale := [⟨1, -1, "Fries", 1, 3, "Online", "Cash"⟩]

/-- C8 witness: horizon 2 over the one-day history satisfies the hypotheses
and the shape properties follow. -/
theorem c8_fallback_shape_witness :
    1 ≤ 2
    ∧ fallbackDailyData c8Sales "Fries" 0 (fun _ => 0) ≠ []
    ∧ ∃ r : FallbackResult,
        movingAverageFallback c8Sales "Fries" 2 0 (fun _ => 0) (fun _ => 1)
          = .ok r
        ∧ r.daily_forecast.length = 2
        ∧ (∀ p ∈ r.daily_forecast, 0 ≤ p.predicted_quantity)
        ∧ r.summary.total_predicted_quantity
            = (r.daily_forecast.map (·.predicted_quantity)).sum :=
  ⟨by norm_num, by decide,
   c8_fallback_shape c8Sales "Fries" 2 0 (fun _ => 0) (fun _ => 1)
     (by norm_num) (by decide)⟩

-- ═══════════ PRIMARY/FALLBACK CONTROL FLOW (C9) ═══════════

/-- Outcome of one `fetch` to the ML service: a 2xx response with a parsed
body, a non-2xx response, or a thrown error (network failure, abort on the
shared timeout, or a JSON parse failure). -/
inductive FetchOutcome (α : Type)
  | ok (body : α)
  | httpError (status : ℕ)
  | failed

def FetchOutcome.isOk {α : Type} : FetchOutcome α → Bool
  | .ok _ => true
  | _ => false

/-- Embeds `callMLService`: the two parallel requests share one abort deadline; the
combined response exists only when BOTH responses are ok — any thrown error
is caught and any non-2xx status short-circuits — otherwise `null` is
returned to trigger the fallback.  `formatML` abstracts `formatMLResponse`,
which only ever runs on the two successful bodies. -/
def callMLService {α β : Type} (formatML : α → α → β)
    (forecastRes profitRes : FetchOutcome α) : Option β :=
  match forecastRes, profitRes with
  | .ok f, .ok p => some (formatML f p)
  | _, _ => none

/-- The result of `handleForecastDemand`: an enriched primary result, or the
fallback's result. -/
inductive ForecastToolResult (β : Type)
  | primary (r : β)
  | fallback (r : Except FallbackError FallbackResult)

/-- Embeds `handleForecastDemand`: try the ML service; on `null` run the
moving-average fallback. -/
def handleForecastDemand {α β : Type} (formatML : α → α → β)
    (forecastRes profitRes : FetchOutcome α) (sales : List Sale)
    (product : String) (daysAhead : ℕ) (now : ℤ) (dayOfWeekOf : ℤ → ℕ)
    (variance : ℕ → ℚ) : ForecastToolResult β :=
  match callMLService formatML forecastRes profitRes with
  | some r => .primary r
  | none =>
    .fallback
      (movingAverageFallback sales product daysAhead now dayOfWeekOf variance)

-- ═══════════ THEOREMS: NO PARTIAL PRIMARY RESULTS (C9) ═══════════

/-- C9: if either of the two parallel primary calls is not a success (it
threw, timed out, or returned a non-2xx status), the whole primary path is
abandoned: the handler's result is exactly the fallback result, which
depends on neither call's body nor on the formatter. -/
theorem c9_partial_failure_falls_back {α β : Type} (formatML : α → α → β)
    (forecastRes profitRes : FetchOutcome α) (sales : List Sale)
    (product : String) (daysAhead : ℕ) (now : ℤ) (dayOfWeekOf : ℤ → ℕ)
    (variance : ℕ → ℚ)
    (h : forecastRes.isOk = false ∨ profitRes.isOk = false) :
    handleForecastDemand formatML forecastRes profitRes sales product
        daysAhead now dayOfWeekOf variance
      = .fallback
          (movingAverageFallback sales product daysAhead now dayOfWeekOf
            variance) := by
  cases forecastRes <;> cases profitRes <;>
    simp [handleForecastDemand, callMLService, FetchOutcome.isOk] at h ⊢

/-- C9 witness: forecast call returns HTTP 500 while the profit call
succeeds — the result is still exactly the fallback result. -/
theorem c9_partial_failure_witness :
    ((FetchOutcome.httpError 500 : FetchOutcome ℕ).isOk = false
      ∨ (FetchOutcome.ok 7 : FetchOutcome ℕ).isOk = false)
    ∧ handleForecastDemand (fun a b : ℕ => a + b) (.httpError 500) (.ok 7)
        c8Sales "Fries" 3 0 (fun _ => 0) (fun _ => 1)
      = .fallback
          (movingAverageFallback c8Sales "Fries" 3 0 (fun _ => 0)
            (fun _ => 1)) :=
  ⟨Or.inl rfl,
   c9_partial_failure_falls_back (fun a b : ℕ => a + b) (.httpError 500)
     (.ok 7) c8Sales "Fries" 3 0 (fun _ => 0) (fun _ => 1) (Or.inl rfl)⟩

end RestaurantForecast
